import Mathlib

/-!
Shallow embedding of the agent simulation platform's UI core
(`src/ui/lib/dummy-data.ts`, `src/ui/app/page.tsx`,
`src/ui/components/ConfigForm.tsx`) and proofs about the feed/turn
generation, run status computation, and configuration handling.

TypeScript `Record<string, T>` objects are modelled as insertion-ordered
association lists `List (String × T)`; JS object assignment overwrites, so
lookup takes the last binding. The JS clock (`Date.now()`) is modelled as an
explicit `now : Nat` parameter (epoch milliseconds); no claim depends on it.
-/

set_option maxRecDepth 16384

namespace Sim

/-- Embeds `interface Agent` from `src/ui/types`. -/
structure Agent where
  handle : String
  name : String
  bio : String
  generatedBio : String
  followers : Nat
  following : Nat
  postsCount : Nat
deriving DecidableEq

/-- Embeds `interface Post` from `src/ui/types`. `createdAt` is the ISO-8601
timestamp string of the source; ISO strings compare lexicographically in
chronological order. -/
structure Post where
  uri : String
  authorDisplayName : String
  authorHandle : String
  text : String
  bookmarkCount : Nat
  likeCount : Nat
  quoteCount : Nat
  replyCount : Nat
  repostCount : Nat
  createdAt : String
deriving DecidableEq

/-- Embeds `interface Feed` from `src/ui/types`. `createdAt` is the epoch-ms
timestamp the source derives from `Date.now()`. -/
structure Feed where
  feedId : String
  runId : String
  turnNumber : Nat
  agentHandle : String
  postUris : List String
  createdAt : Nat
deriving DecidableEq

/-- The `type` field of `AgentAction`: `'like' | 'comment' | 'follow'`. -/
inductive ActionType where
  | like
  | comment
  | follow
deriving DecidableEq

/-- Embeds `interface AgentAction` from `src/ui/types`; the optional
`postUri?` and `userId?` fields become `Option String`. -/
structure AgentAction where
  actionId : String
  agentHandle : String
  postUri : Option String
  userId : Option String
  type : ActionType
  createdAt : Nat
deriving DecidableEq

/-- Embeds `interface Turn` from `src/ui/types`: the two
`Record<string, _>` maps become insertion-ordered association lists. -/
structure Turn where
  turnNumber : Nat
  agentFeeds : List (String × Feed)
  agentActions : List (String × List AgentAction)
deriving DecidableEq

/-- The `status` field of `Run`: `'running' | 'completed' | 'failed'`. -/
inductive RunStatus where
  | running
  | completed
  | failed
deriving DecidableEq

/-- Embeds `interface Run` from `src/ui/types`. The numeric fields are JS
numbers, modelled as `Int`. -/
structure Run where
  runId : String
  createdAt : String
  totalTurns : Int
  totalAgents : Int
  status : RunStatus
deriving DecidableEq

/-- Embeds `interface RunConfig` from `src/ui/types`. -/
structure RunConfig where
  numAgents : Int
  numTurns : Int
deriving DecidableEq

/-- The keys of a JS record, in insertion order (`Object.keys`). -/
def recordKeys {α : Type} (rec : List (String × α)) : List String :=
  rec.map Prod.fst

/-- Lookup in a JS record: assignment overwrites, so the last binding for a
key wins. -/
def recordLookup {α : Type} (rec : List (String × α)) (k : String) : Option α :=
  (rec.reverse.find? (fun e => e.fst == k)).map Prod.snd

/-- Placeholder agent for `List.getD`; every index the code produces is in
range, so this default is never selected (the JS code indexes the array
directly). -/
def defaultAgent : Agent :=
  { handle := "", name := "", bio := "", generatedBio := ""
    followers := 0, following := 0, postsCount := 0 }

/-- Embeds the agent-rotation prologue of `createTurnForRun`
(`src/ui/lib/dummy-data.ts` lines 271-278): `startOffset = turnNumber %
agents.length`, `numAgents = Math.min(agents.length, 5)`, and
`selectedAgents[i] = agents[(startOffset + i) % agents.length]`. -/
def selectedAgents (turnNumber : Nat) (agents : List Agent) : List Agent :=
  (List.range (min agents.length 5)).map
    (fun i => agents.getD ((turnNumber % agents.length + i) % agents.length) defaultAgent)

/-- Embeds the `postUris` computation of `createTurnForRun` (lines 284-289):
`postStartIdx = (turnNumber * selectedAgents.length + idx) % allPosts.length`,
then the three posts at `postStartIdx + 0, 1, 2` modulo the corpus length,
with `.filter(Boolean)`. When `allPosts` is empty the JS modulus is `NaN`,
each lookup yields `undefined`, and the filter leaves an empty list; the
filter also drops an empty-string uri, as `Boolean('')` is false. -/
def feedPostUris (turnNumber selCount idx : Nat) (allPosts : List Post) : List String :=
  if allPosts.length = 0 then []
  else
    let postStartIdx := (turnNumber * selCount + idx) % allPosts.length
    (List.range 3).filterMap
      (fun j =>
        ((allPosts[(postStartIdx + j) % allPosts.length]?.map Post.uri).filter
          (fun s => s != "")))

/-- Embeds the feed record built by `createTurnForRun` (lines 291-298) for
one selected agent. `now` models `Date.now()`. -/
def mkFeed (runId : String) (turnNumber now selCount idx : Nat) (agent : Agent)
    (allPosts : List Post) : Feed :=
  { feedId := "feed_" ++ runId ++ "_turn" ++ toString turnNumber ++ "_" ++ agent.handle
    runId := runId
    turnNumber := turnNumber
    agentHandle := agent.handle
    postUris := feedPostUris turnNumber selCount idx allPosts
    createdAt := now + turnNumber * 60000 }

/-- Embeds the action list built by `createTurnForRun` (lines 300-320) for
one selected agent: a like when `turnNumber % 2 === 0 && idx % 2 === 0 &&
postUris.length > 0`, then a follow of `selectedAgents[1]` when
`turnNumber % 3 === 0 && idx === 0 && selectedAgents.length > 1`. -/
def mkAgentActions (runId : String) (turnNumber now : Nat) (sel : List Agent)
    (idx : Nat) (agent : Agent) (postUris : List String) : List AgentAction :=
  let likeActs : List AgentAction :=
    if turnNumber % 2 = 0 ∧ idx % 2 = 0 ∧ postUris ≠ [] then
      match postUris.head? with
      | some u =>
          [{ actionId := "action_" ++ runId ++ "_turn" ++ toString turnNumber
               ++ "_" ++ agent.handle ++ "_1"
             agentHandle := agent.handle
             postUri := some u
             userId := none
             type := ActionType.like
             createdAt := now + turnNumber * 60000 + 5000 }]
      | none => []
    else []
  let followActs : List AgentAction :=
    if turnNumber % 3 = 0 ∧ idx = 0 ∧ 1 < sel.length then
      match sel[1]? with
      | some target =>
          [{ actionId := "action_" ++ runId ++ "_turn" ++ toString turnNumber
               ++ "_" ++ agent.handle ++ "_2"
             agentHandle := agent.handle
             postUri := none
             userId := some target.handle
             type := ActionType.follow
             createdAt := now + turnNumber * 60000 + 7000 }]
      | none => []
    else []
  likeActs ++ followActs

/-- Embeds `createTurnForRun` (`src/ui/lib/dummy-data.ts` lines 265-328).
The `forEach` over `selectedAgents` with index `idx` becomes a map over
`List.range`; the two records are keyed by each selected agent's handle. -/
def createTurnForRun (runId : String) (turnNumber : Nat) (agents : List Agent)
    (allPosts : List Post) (now : Nat) : Turn :=
  let sel := selectedAgents turnNumber agents
  { turnNumber := turnNumber
    agentFeeds :=
      (List.range sel.length).map
        (fun idx =>
          let agent := sel.getD idx defaultAgent
          (agent.handle, mkFeed runId turnNumber now sel.length idx agent allPosts))
    agentActions :=
      (List.range sel.length).map
        (fun idx =>
          let agent := sel.getD idx defaultAgent
          (agent.handle,
            mkAgentActions runId turnNumber now sel idx agent
              (feedPostUris turnNumber sel.length idx allPosts))) }

/-- Embeds `DUMMY_AGENTS` (`src/ui/lib/dummy-data.ts` lines 67-140). -/
def DUMMY_AGENTS : List Agent :=
  [ { handle := "@alice.bsky.social", name := "Alice Chen"
      bio := "AI researcher and educator. Building the future of human-AI collaboration."
      generatedBio := "Alice is a passionate AI researcher who focuses on making artificial intelligence more accessible and understandable. She regularly shares insights about machine learning, human-computer interaction, and the ethical implications of AI technology."
      followers := 12450, following := 892, postsCount := 3421 },
    { handle := "@bob.tech", name := "Bob Martinez"
      bio := "Software engineer | Open source contributor | Coffee enthusiast ☕"
      generatedBio := "Bob is an experienced software engineer with a strong focus on open-source contributions. He loves sharing technical knowledge, code reviews, and occasionally posts about his coffee adventures."
      followers := 8765, following := 1203, postsCount := 2105 },
    { handle := "@charlie.dev", name := "Charlie Kim"
      bio := "Building products that matter. Former startup founder."
      generatedBio := "Charlie is a product-focused engineer with a background in startup entrepreneurship. He shares lessons learned, product development insights, and thoughts on building sustainable businesses."
      followers := 15432, following := 567, postsCount := 4521 },
    { handle := "@diana.design", name := "Diana Park"
      bio := "UX Designer | Accessibility advocate | Design systems enthusiast"
      generatedBio := "Diana is a UX designer passionate about creating inclusive and accessible digital experiences. She frequently shares design system patterns, accessibility best practices, and thoughts on how design impacts user behavior."
      followers := 9876, following := 1456, postsCount := 1876 },
    { handle := "@edward.data", name := "Edward Wu"
      bio := "Data scientist | ML engineer | Stats nerd 📊"
      generatedBio := "Edward is a data scientist who loves diving deep into datasets and building machine learning models. He shares analysis insights, statistical findings, and practical ML techniques with the community."
      followers := 11234, following := 789, postsCount := 3210 },
    { handle := "@fiona.frontend", name := "Fiona Lee"
      bio := "Frontend engineer | React enthusiast | CSS wizard"
      generatedBio := "Fiona is a frontend engineer specializing in React and modern CSS. She enjoys building performant web applications and sharing tips on component architecture, performance optimization, and creative CSS techniques."
      followers := 6543, following := 923, postsCount := 1567 },
    { handle := "@george.backend", name := "George Thompson"
      bio := "Backend engineer | Distributed systems | Database optimization"
      generatedBio := "George is a backend engineer with expertise in distributed systems and database design. He shares insights on system architecture, scalability challenges, and database performance tuning strategies."
      followers := 14567, following := 612, postsCount := 2890 },
    { handle := "@hannah.ai", name := "Hannah Rodriguez"
      bio := "AI product manager | ML adoption | Ethical AI"
      generatedBio := "Hannah is a product manager focused on bringing AI products to market. She writes about ML adoption strategies, ethical considerations in AI development, and bridging the gap between technical teams and business stakeholders."
      followers := 8765, following := 1345, postsCount := 2103 } ]

/-- Embeds `DUMMY_POSTS` (`src/ui/lib/dummy-data.ts` lines 142-263). -/
def DUMMY_POSTS : List Post :=
  [ { uri := "at://did:plc:example1/post1"
      authorDisplayName := "Alice Chen", authorHandle := "@alice.bsky.social"
      text := "Just finished reading an amazing paper on transformer architectures. The attention mechanism continues to surprise me with its elegance!"
      bookmarkCount := 23, likeCount := 145, quoteCount := 8, replyCount := 12
      repostCount := 34, createdAt := "2025-01-15T10:00:00" },
    { uri := "at://did:plc:example2/post2"
      authorDisplayName := "Bob Martinez", authorHandle := "@bob.tech"
      text := "Found a beautiful bug today that only shows up on Tuesdays during leap years. Classic. 🐛"
      bookmarkCount := 5, likeCount := 67, quoteCount := 2, replyCount := 8
      repostCount := 12, createdAt := "2025-01-15T11:30:00" },
    { uri := "at://did:plc:example3/post3"
      authorDisplayName := "Charlie Kim", authorHandle := "@charlie.dev"
      text := "The best product decisions are often the ones that seem obvious in retrospect but were controversial at the time."
      bookmarkCount := 89, likeCount := 234, quoteCount := 15, replyCount := 45
      repostCount := 78, createdAt := "2025-01-15T13:00:00" },
    { uri := "at://did:plc:example4/post4"
      authorDisplayName := "Diana Park", authorHandle := "@diana.design"
      text := "Accessibility isn't optional. Every design decision impacts real people with real needs. Let's build for everyone. ♿"
      bookmarkCount := 156, likeCount := 423, quoteCount := 28, replyCount := 67
      repostCount := 112, createdAt := "2025-01-15T14:15:00" },
    { uri := "at://did:plc:example5/post5"
      authorDisplayName := "Edward Wu", authorHandle := "@edward.data"
      text := "Just visualized a dataset with 10M rows and the patterns that emerged were fascinating. Sometimes you need to zoom out to see the forest for the trees."
      bookmarkCount := 34, likeCount := 198, quoteCount := 12, replyCount := 23
      repostCount := 45, createdAt := "2025-01-15T15:30:00" },
    { uri := "at://did:plc:example6/post6"
      authorDisplayName := "Fiona Lee", authorHandle := "@fiona.frontend"
      text := "CSS Grid + Flexbox = unstoppable. Just built a responsive layout that would have taken me hours before. Modern CSS is magical."
      bookmarkCount := 78, likeCount := 312, quoteCount := 19, replyCount := 34
      repostCount := 89, createdAt := "2025-01-15T16:00:00" },
    { uri := "at://did:plc:example7/post7"
      authorDisplayName := "George Thompson", authorHandle := "@george.backend"
      text := "Database indexing is like a library catalog system. Without it, you're searching through every book. With it, you go straight to the shelf."
      bookmarkCount := 112, likeCount := 445, quoteCount := 31, replyCount := 56
      repostCount := 123, createdAt := "2025-01-15T17:20:00" },
    { uri := "at://did:plc:example8/post8"
      authorDisplayName := "Hannah Rodriguez", authorHandle := "@hannah.ai"
      text := "The hardest part of building AI products isn't the technology—it's understanding user needs and ensuring the AI actually solves real problems."
      bookmarkCount := 67, likeCount := 289, quoteCount := 22, replyCount := 41
      repostCount := 98, createdAt := "2025-01-15T18:45:00" },
    { uri := "at://did:plc:example9/post9"
      authorDisplayName := "Alice Chen", authorHandle := "@alice.bsky.social"
      text := "Reading through code reviews and learning so much. The best teams learn from each other. Always ask \"why?\" not just \"what?\""
      bookmarkCount := 45, likeCount := 178, quoteCount := 9, replyCount := 19
      repostCount := 42, createdAt := "2025-01-16T09:00:00" },
    { uri := "at://did:plc:example10/post10"
      authorDisplayName := "Bob Martinez", authorHandle := "@bob.tech"
      text := "Refactored a legacy component today. It's like archaeology—carefully removing layers to discover the original intent. Satisfying when it all clicks."
      bookmarkCount := 28, likeCount := 134, quoteCount := 6, replyCount := 15
      repostCount := 29, createdAt := "2025-01-16T10:30:00" } ]

/-- Embeds `DEFAULT_CONFIG` (`src/ui/lib/dummy-data.ts` lines 379-382). -/
def DEFAULT_CONFIG : RunConfig :=
  { numAgents := 5, numTurns := 10 }

/-- Embeds `getPostByUri` (`src/ui/lib/dummy-data.ts` lines 384-386):
`DUMMY_POSTS.find((p) => p.uri === uri)`. -/
def getPostByUri (uri : String) : Option Post :=
  DUMMY_POSTS.find? (fun p => p.uri == uri)

/-- The `selectedTurn` UI state of `src/ui/app/page.tsx`:
`number | 'summary' | null` (the `null` case is the `Option` below). -/
inductive SelectedTurn where
  | summary
  | turn (n : Nat)
deriving DecidableEq

/-- The component state of `Home` in `src/ui/app/page.tsx` that the claims
touch: the `runs`, `runConfigs`, `selectedRunId` and `selectedTurn`
`useState` cells, plus the `newRunTurns` record of turns for new runs. The
module-level `DUMMY_TURNS` record is passed alongside as `dummyTurns` where
a function reads it. -/
structure PageState where
  runs : List Run
  runConfigs : List (String × RunConfig)
  selectedRunId : Option String
  selectedTurn : Option SelectedTurn
  newRunTurns : List (String × List (String × Turn))
deriving DecidableEq

/-- Models JS `Number(...)` on this app's turn keys, which are decimal
numerals (`'0'`, `'1'`, ...). -/
def jsNumber (s : String) : Nat :=
  s.toNat?.getD 0

/-- Insertion step of `sortNat`. -/
def insertSorted (x : Nat) : List Nat → List Nat
  | [] => [x]
  | y :: ys => if x ≤ y then x :: y :: ys else y :: insertSorted x ys

/-- Models `.sort((a, b) => a - b)`: sorts ascending. -/
def sortNat (l : List Nat) : List Nat :=
  l.foldr insertSorted []

/-- Embeds `getAvailableTurns` (`src/ui/app/page.tsx` lines 38-44):
`newRunTurns[runId] || DUMMY_TURNS[runId] || {}`, then
`Object.keys(turns).map(Number).sort((a, b) => a - b)`. A present record is
truthy in JS even when empty, so `||` falls through only on a missing
key. -/
def getAvailableTurns (newRunTurns dummyTurns : List (String × List (String × Turn)))
    (runId : Option String) : List Nat :=
  match runId with
  | none => []
  | some rid =>
    let turns :=
      ((recordLookup newRunTurns rid).orElse (fun _ => recordLookup dummyTurns rid)).getD []
    sortNat ((recordKeys turns).map jsNumber)

/-- Embeds `getCompletedTurnsCount` (`src/ui/app/page.tsx` lines 47-49). -/
def getCompletedTurnsCount (newRunTurns dummyTurns : List (String × List (String × Turn)))
    (runId : Option String) : Nat :=
  (getAvailableTurns newRunTurns dummyTurns runId).length

/-- Embeds `getRunStatus` (`src/ui/app/page.tsx` lines 82-86): `'running'`
for a null run, otherwise `completed >= run.totalTurns ? 'completed' :
'running'`. -/
def getRunStatus (newRunTurns dummyTurns : List (String × List (String × Turn)))
    (run : Option Run) : RunStatus :=
  match run with
  | none => RunStatus.running
  | some r =>
    if (getCompletedTurnsCount newRunTurns dummyTurns (some r.runId) : Int) ≥ r.totalTurns
    then RunStatus.completed
    else RunStatus.running

/-- Embeds `handleConfigSubmit` (`src/ui/app/page.tsx` lines 94-112):
builds the new run from the submitted config with status `'running'`,
prepends it to `runs`, stores the config under the new run id, selects the
new run and the summary view. `nowIso` models `new Date().toISOString()`. -/
def handleConfigSubmit (nowIso : String) (config : RunConfig) (st : PageState) : PageState :=
  let newRunId := "run_" ++ nowIso
  let newRun : Run :=
    { runId := newRunId
      createdAt := nowIso
      totalTurns := config.numTurns
      totalAgents := config.numAgents
      status := RunStatus.running }
  { st with
    runs := newRun :: st.runs
    runConfigs := st.runConfigs ++ [(newRunId, config)]
    selectedRunId := some newRunId
    selectedTurn := some SelectedTurn.summary }

/-- Embeds the `onChange` clamp of both numeric inputs in
`src/ui/components/ConfigForm.tsx` (lines 40-43 and 60-63):
`isNaN(value) || value < 1 ? 1 : value`, with `none` modelling a `NaN`
parse of the input text. -/
def clampFormValue (v : Option Int) : Int :=
  match v with
  | none => 1
  | some value => if value < 1 then 1 else value

/-- The `useState` cells of `ConfigForm` (`src/ui/components/ConfigForm.tsx`
lines 12-13). -/
structure ConfigFormState where
  numAgents : Int
  numTurns : Int
deriving DecidableEq

/-- A user edit of one of the two numeric inputs, carrying the
`Number(e.currentTarget.value)` result (`none` = `NaN`). -/
inductive ConfigFormEvent where
  | changeAgents (v : Option Int)
  | changeTurns (v : Option Int)
deriving DecidableEq

/-- One `onChange` step of `ConfigForm`: the edited cell is set to the
clamped value. -/
def configFormStep (st : ConfigFormState) (e : ConfigFormEvent) : ConfigFormState :=
  match e with
  | ConfigFormEvent.changeAgents v => { st with numAgents := clampFormValue v }
  | ConfigFormEvent.changeTurns v => { st with numTurns := clampFormValue v }

/-- The initial `ConfigForm` state: both cells start at `defaultConfig`
(`src/ui/components/ConfigForm.tsx` lines 12-13). -/
def initConfigForm (defaultConfig : RunConfig) : ConfigFormState :=
  { numAgents := defaultConfig.numAgents, numTurns := defaultConfig.numTurns }

/-- Embeds `handleSubmit` of `ConfigForm` (lines 15-18): submits
`{ numAgents, numTurns }` from the current state. -/
def submitConfig (st : ConfigFormState) : RunConfig :=
  { numAgents := st.numAgents, numTurns := st.numTurns }

/-- Placeholder feed for total indexing into concrete turn values. -/
def defaultFeed : Feed :=
  { feedId := "", runId := "", turnNumber := 0, agentHandle := ""
    postUris := [], createdAt := 0 }

/-- Placeholder action for total indexing into concrete action lists. -/
def defaultAction : AgentAction :=
  { actionId := "", agentHandle := "", postUri := none, userId := none
    type := ActionType.like, createdAt := 0 }

/-- Lexicographic comparison of character lists by code point: the order JS
applies when comparing strings, and the order under which ISO-8601
timestamp strings compare chronologically. -/
def charListLt : List Char → List Char → Bool
  | [], [] => false
  | [], _ :: _ => true
  | _ :: _, [] => false
  | c :: cs, d :: ds =>
    if c.toNat < d.toNat then true
    else if d.toNat < c.toNat then false
    else charListLt cs ds

/-- String comparison by code points, as JS `<` compares strings. -/
def stringLt (a b : String) : Bool :=
  charListLt a.data b.data

/-! Helper lemmas about the embedded operations. -/

theorem selectedAgents_length (t : Nat) (agents : List Agent) :
    (selectedAgents t agents).length = min agents.length 5 := by
  simp [selectedAgents]

theorem selectedAgents_getElem? (t : Nat) (agents : List Agent) (i : Nat)
    (hi : i < min agents.length 5) :
    (selectedAgents t agents)[i]? =
      some (agents.getD ((t % agents.length + i) % agents.length) defaultAgent) := by
  unfold selectedAgents
  rw [List.getElem?_map, List.getElem?_range hi]
  rfl

theorem rotate_mod {n j : Nat} (t : Nat) (hn : 0 < n) (hj : j < n) :
    (t % n + (j + n - t % n) % n) % n = j := by
  have hs : t % n < n := Nat.mod_lt _ hn
  have hle : t % n ≤ j + n := le_trans (le_of_lt hs) (Nat.le_add_left n j)
  rw [Nat.add_mod_mod, Nat.add_sub_cancel' hle, Nat.add_mod_right, Nat.mod_eq_of_lt hj]

theorem length_insertSorted (x : Nat) (l : List Nat) :
    (insertSorted x l).length = l.length + 1 := by
  induction l with
  | nil => rfl
  | cons y ys ih =>
    unfold insertSorted
    split
    · simp
    · simp [ih]

theorem length_sortNat (l : List Nat) : (sortNat l).length = l.length := by
  unfold sortNat
  induction l with
  | nil => rfl
  | cons x xs ih => simp [List.foldr_cons, length_insertSorted, ih]

theorem clampFormValue_ge_one (v : Option Int) : 1 ≤ clampFormValue v := by
  cases v with
  | none => simp [clampFormValue]
  | some value =>
    simp only [clampFormValue]
    split <;> omega

theorem configForm_foldl_ge (events : List ConfigFormEvent) (st : ConfigFormState)
    (hA : 1 ≤ st.numAgents) (hT : 1 ≤ st.numTurns) :
    1 ≤ (events.foldl configFormStep st).numAgents ∧
      1 ≤ (events.foldl configFormStep st).numTurns := by
  induction events generalizing st with
  | nil => exact ⟨hA, hT⟩
  | cons e es ih =>
    rw [List.foldl_cons]
    cases e with
    | changeAgents v => exact ih _ (clampFormValue_ge_one v) hT
    | changeTurns v => exact ih _ hA (clampFormValue_ge_one v)

/-! Claim theorems. -/

/-- Claim C1 (code bug): the claim says no post shown to an agent in an
earlier turn of a run is ever shown to that agent again, but
`createTurnForRun` reuses overlapping 3-post windows of the corpus: with
the first three dummy agents and the dummy corpus, agent
`@alice.bsky.social` is shown post `at://did:plc:example8/post8` in turn 1
and again in turn 2 of the same run. This theorem evaluates the code at
that failing input. -/
theorem claim_C1_repeat_across_turns :
    "at://did:plc:example8/post8" ∈
      (((recordLookup (createTurnForRun "run_demo" 1 (DUMMY_AGENTS.take 3) DUMMY_POSTS 0).agentFeeds
          "@alice.bsky.social").map Feed.postUris).getD []) ∧
    "at://did:plc:example8/post8" ∈
      (((recordLookup (createTurnForRun "run_demo" 2 (DUMMY_AGENTS.take 3) DUMMY_POSTS 0).agentFeeds
          "@alice.bsky.social").map Feed.postUris).getD []) := by
  decide

/-- Claim C2 (code bug): the claim says every feed is sorted by `created_at`
descending and never contains the agent's own posts; at turn 0 with the
first three dummy agents, `@alice.bsky.social` receives the first three
corpus posts, whose first member is her own post and whose timestamps are
strictly ascending (first below second in the JS string order). -/
theorem claim_C2_own_post_and_ascending :
    ((recordLookup (createTurnForRun "run_demo" 0 (DUMMY_AGENTS.take 3) DUMMY_POSTS 0).agentFeeds
        "@alice.bsky.social").map Feed.postUris
      = some ["at://did:plc:example1/post1", "at://did:plc:example2/post2",
          "at://did:plc:example3/post3"]) ∧
    ((getPostByUri "at://did:plc:example1/post1").map Post.authorHandle
      = some "@alice.bsky.social") ∧
    ((getPostByUri "at://did:plc:example1/post1").map Post.createdAt
      = some "2025-01-15T10:00:00") ∧
    ((getPostByUri "at://did:plc:example2/post2").map Post.createdAt
      = some "2025-01-15T11:30:00") ∧
    stringLt "2025-01-15T10:00:00" "2025-01-15T11:30:00" = true := by
  decide

/-- Claim C3 (counterexample): the claim says every agent of any non-empty
pairwise-distinct roster receives a feed each turn, but `createTurnForRun`
serves at most `min(roster, 5)` agents per turn: with the first six dummy
agents (distinct handles), the sixth agent `@fiona.frontend` gets no feed
in turn 0. -/
theorem claim_C3_counterexample :
    (DUMMY_AGENTS.take 6).length = 6 ∧
    ((DUMMY_AGENTS.take 6).map Agent.handle).Nodup ∧
    ((DUMMY_AGENTS.take 6).map Agent.handle).getD 5 "" = "@fiona.frontend" ∧
    ¬ (∀ a ∈ DUMMY_AGENTS.take 6,
        a.handle ∈
          recordKeys (createTurnForRun "run_demo" 0 (DUMMY_AGENTS.take 6) DUMMY_POSTS 0).agentFeeds) := by
  refine ⟨by decide, by decide, by decide, by decide⟩

/-- Claim C3 (amended): for every turn produced by `createTurnForRun` with a
non-empty agent roster of at most five agents, every agent in the roster
receives a feed that turn, i.e. every roster agent's handle appears as a
key of the returned turn's `agentFeeds`; with more than five agents only a
rotating window of five is served. -/
theorem claim_C3_amended_all_agents_fed (runId : String) (turnNumber : Nat)
    (agents : List Agent) (allPosts : List Post) (now : Nat)
    (hne : 0 < agents.length) (hle : agents.length ≤ 5) :
    ∀ a ∈ agents,
      a.handle ∈ recordKeys (createTurnForRun runId turnNumber agents allPosts now).agentFeeds := by
  intro a ha
  obtain ⟨j, hj, hget⟩ := List.mem_iff_getElem.mp ha
  have hmin : min agents.length 5 = agents.length := Nat.min_eq_left hle
  set n := agents.length with hn
  have hi : (j + n - turnNumber % n) % n < n := Nat.mod_lt _ hne
  have hsel : (selectedAgents turnNumber agents).length = n := by
    rw [selectedAgents_length, hmin]
  unfold createTurnForRun recordKeys
  simp only [List.map_map, List.mem_map, List.mem_range, Function.comp]
  refine ⟨(j + n - turnNumber % n) % n, by rw [hsel]; exact hi, ?_⟩
  rw [List.getD_eq_getElem?_getD, selectedAgents_getElem? _ _ _ (by rw [hmin]; exact hi)]
  rw [rotate_mod _ hne hj]
  simp [List.getD_eq_getElem?_getD, List.getElem?_eq_getElem hj, hget]

/-- Witness for C3 (amended) at a concrete input: with the first three dummy
agents, the first agent's handle is a key of turn 0's `agentFeeds`. -/
theorem claim_C3_amended_witness :
    (DUMMY_AGENTS.headD defaultAgent).handle ∈
      recordKeys (createTurnForRun "run_demo" 0 (DUMMY_AGENTS.take 3) DUMMY_POSTS 0).agentFeeds :=
  claim_C3_amended_all_agents_fed "run_demo" 0 (DUMMY_AGENTS.take 3) DUMMY_POSTS 0
    (by decide) (by decide) (DUMMY_AGENTS.headD defaultAgent) (by decide)

/-- Claim C4 (code bug): the claim says a second follow of the same target by
the same actor in a later turn of the run is dropped, but `createTurnForRun`
emits a follow whenever `turnNumber % 3 = 0` for the first selected agent
with no cross-turn deduplication: with the first three dummy agents,
`@alice.bsky.social` follows `@bob.tech` in turn 0 and again in turn 3, so
the run records two follows of the same target by the same actor. -/
theorem claim_C4_duplicate_follow_recorded :
    (((recordLookup (createTurnForRun "run_demo" 0 (DUMMY_AGENTS.take 3) DUMMY_POSTS 0).agentActions
          "@alice.bsky.social").getD []).filter
        (fun a => decide (a.type = ActionType.follow))).map AgentAction.userId
      = [some "@bob.tech"] ∧
    (((recordLookup (createTurnForRun "run_demo" 3 (DUMMY_AGENTS.take 3) DUMMY_POSTS 0).agentActions
          "@alice.bsky.social").getD []).filter
        (fun a => decide (a.type = ActionType.follow))).map AgentAction.userId
      = [some "@bob.tech"] := by
  decide

/-- Claim C5 (confirmed): for every call to `createTurnForRun`, every
generated feed's `postUris` list has length at most 3, and when the post
corpus is empty the list is empty; feed construction is a total function
and never raises an error. -/
theorem claim_C5_feed_size_at_most_three (runId : String) (turnNumber : Nat)
    (agents : List Agent) (allPosts : List Post) (now : Nat) :
    ∀ e ∈ (createTurnForRun runId turnNumber agents allPosts now).agentFeeds,
      e.2.postUris.length ≤ 3 ∧ (allPosts = [] → e.2.postUris = []) := by
  intro e he
  unfold createTurnForRun at he
  simp only [List.mem_map, List.mem_range] at he
  obtain ⟨idx, hidx, rfl⟩ := he
  dsimp [mkFeed]
  constructor
  · unfold feedPostUris
    split
    · simp
    · calc (List.filterMap _ (List.range 3)).length ≤ (List.range 3).length :=
            List.length_filterMap_le _ _
        _ = 3 := by simp
  · intro h
    subst h
    simp [feedPostUris]

/-- Witness for C5 at a concrete input: the first feed of turn 0 for the
first three dummy agents has at most three post uris. -/
theorem claim_C5_witness :
    ((createTurnForRun "run_demo" 0 (DUMMY_AGENTS.take 3) DUMMY_POSTS 0).agentFeeds.headD
        ("", defaultFeed)).2.postUris.length ≤ 3 :=
  (claim_C5_feed_size_at_most_three "run_demo" 0 (DUMMY_AGENTS.take 3) DUMMY_POSTS 0
    ((createTurnForRun "run_demo" 0 (DUMMY_AGENTS.take 3) DUMMY_POSTS 0).agentFeeds.headD
        ("", defaultFeed)) (by decide)).1

/-- Claim C6 (confirmed): `getRunStatus` returns `'completed'` exactly when
the number of recorded turns for the run is at least the run's
`totalTurns`, and `'running'` for any strictly smaller count; the count is
the number of entries of the run's turn record (`newRunTurns` entry first,
else the dummy record, else empty). -/
theorem claim_C6_run_status_iff (newRunTurns dummyTurns : List (String × List (String × Turn)))
    (r : Run) :
    (getRunStatus newRunTurns dummyTurns (some r) = RunStatus.completed ↔
      r.totalTurns ≤ (getCompletedTurnsCount newRunTurns dummyTurns (some r.runId) : Int)) ∧
    (getRunStatus newRunTurns dummyTurns (some r) = RunStatus.running ↔
      (getCompletedTurnsCount newRunTurns dummyTurns (some r.runId) : Int) < r.totalTurns) ∧
    getCompletedTurnsCount newRunTurns dummyTurns (some r.runId) =
      (((recordLookup newRunTurns r.runId).orElse
          (fun _ => recordLookup dummyTurns r.runId)).getD []).length := by
  have hred : getRunStatus newRunTurns dummyTurns (some r)
      = if (getCompletedTurnsCount newRunTurns dummyTurns (some r.runId) : Int) ≥ r.totalTurns
        then RunStatus.completed else RunStatus.running := rfl
  refine ⟨?_, ?_, ?_⟩
  · rw [hred]
    split
    next h =>
      exact ⟨fun _ => by omega, fun _ => rfl⟩
    next h =>
      refine ⟨fun hcontra => absurd hcontra (by simp), fun hle => absurd (le_of_lt ?_) h⟩
      omega
  · rw [hred]
    split
    next h =>
      refine ⟨fun hcontra => absurd hcontra (by simp), fun hlt => by omega⟩
    next h =>
      exact ⟨fun _ => by omega, fun _ => rfl⟩
  · unfold getCompletedTurnsCount getAvailableTurns recordKeys
    rw [length_sortNat]
    simp

/-- Claim C7 (confirmed): starting from `DEFAULT_CONFIG` (5 agents, 10
turns), after any sequence of input-change events the `ConfigForm` clamp
keeps both fields at least 1, so the submitted `RunConfig` has
`numAgents ≥ 1` and `numTurns ≥ 1`, and the run `handleConfigSubmit`
creates from it never has zero agents or zero turns (a zero or `NaN` input
value is replaced by 1 and cannot be submitted). -/
theorem claim_C7_config_at_least_one (events : List ConfigFormEvent) (nowIso : String)
    (st : PageState) :
    1 ≤ (submitConfig (events.foldl configFormStep (initConfigForm DEFAULT_CONFIG))).numAgents ∧
    1 ≤ (submitConfig (events.foldl configFormStep (initConfigForm DEFAULT_CONFIG))).numTurns ∧
    ∃ newRun : Run,
      (handleConfigSubmit nowIso
          (submitConfig (events.foldl configFormStep (initConfigForm DEFAULT_CONFIG))) st).runs
        = newRun :: st.runs ∧
      1 ≤ newRun.totalAgents ∧ 1 ≤ newRun.totalTurns := by
  obtain ⟨hA, hT⟩ := configForm_foldl_ge events (initConfigForm DEFAULT_CONFIG)
    (by norm_num [initConfigForm, DEFAULT_CONFIG]) (by norm_num [initConfigForm, DEFAULT_CONFIG])
  refine ⟨hA, hT, ?_⟩
  exact ⟨_, rfl, hA, hT⟩

/-- Claim C8 (confirmed): with a roster of at least two agents with
pairwise-distinct handles, every follow action emitted by
`createTurnForRun` has a target handle (`userId`) different from the acting
agent's handle — no self-follow is ever produced. -/
theorem claim_C8_no_self_follow (runId : String) (turnNumber : Nat) (agents : List Agent)
    (allPosts : List Post) (now : Nat) (h2 : 2 ≤ agents.length)
    (hnd : (agents.map Agent.handle).Nodup) :
    ∀ e ∈ (createTurnForRun runId turnNumber agents allPosts now).agentActions,
      ∀ act ∈ e.2, act.type = ActionType.follow → act.userId ≠ some act.agentHandle := by
  intro e he act hact hfollow
  unfold createTurnForRun at he
  simp only [List.mem_map, List.mem_range] at he
  obtain ⟨idx, hidx, rfl⟩ := he
  dsimp only at hact
  unfold mkAgentActions at hact
  rw [List.mem_append] at hact
  have hn : 0 < agents.length := lt_of_lt_of_le (by norm_num) h2
  rcases hact with hlike | hfol
  · split at hlike
    · split at hlike
      · simp only [List.mem_singleton] at hlike
        subst hlike
        simp at hfollow
      · simp at hlike
    · simp at hlike
  · split at hfol
    case isFalse => simp at hfol
    case isTrue hcond =>
      obtain ⟨ht3, hidx0, hlen⟩ := hcond
      have hmin2 : 2 ≤ min agents.length 5 := le_min h2 (by norm_num)
      have h1lt : 1 < min agents.length 5 := hmin2
      rw [selectedAgents_getElem? _ _ _ h1lt] at hfol
      simp only [List.mem_singleton] at hfol
      subst hfol
      subst hidx0
      intro huser
      simp only [Option.some.injEq] at huser
      have hsel0 : (selectedAgents turnNumber agents).getD 0 defaultAgent
          = agents.getD ((turnNumber % agents.length + 0) % agents.length) defaultAgent := by
        rw [List.getD_eq_getElem?_getD,
          selectedAgents_getElem? _ _ _ (lt_of_lt_of_le (by norm_num) hmin2)]
        rfl
      rw [hsel0] at huser
      set n := agents.length with hdefn
      have hs : turnNumber % n < n := Nat.mod_lt _ hn
      have ha : (turnNumber % n + 0) % n = turnNumber % n := by
        simp [Nat.mod_eq_of_lt hs]
      have hb : (turnNumber % n + 1) % n < n := Nat.mod_lt _ hn
      have hne : (turnNumber % n + 1) % n ≠ turnNumber % n := by
        rcases Nat.lt_or_ge (turnNumber % n + 1) n with hlt | hge
        · rw [Nat.mod_eq_of_lt hlt]
          omega
        · have heq : turnNumber % n + 1 = n := by omega
          rw [heq, Nat.mod_self]
          omega
      rw [ha] at huser
      have hga : agents.getD (turnNumber % n) defaultAgent
          = agents.get ⟨turnNumber % n, hs⟩ := by
        rw [List.getD_eq_getElem?_getD, List.getElem?_eq_getElem hs]
        rfl
      have hgb : agents.getD ((turnNumber % n + 1) % n) defaultAgent
          = agents.get ⟨(turnNumber % n + 1) % n, hb⟩ := by
        rw [List.getD_eq_getElem?_getD, List.getElem?_eq_getElem hb]
        rfl
      rw [hga, hgb] at huser
      have hmb : (turnNumber % n + 1) % n < (agents.map Agent.handle).length := by
        simpa using hb
      have hms : turnNumber % n < (agents.map Agent.handle).length := by
        simpa using hs
      have huser2 : (agents.map Agent.handle).get ⟨(turnNumber % n + 1) % n, hmb⟩
          = (agents.map Agent.handle).get ⟨turnNumber % n, hms⟩ := by
        simpa using huser
      have hfin := (List.Nodup.get_inj_iff hnd).mp huser2
      exact hne (by simpa using hfin)

/-- Witness for C8 at a concrete input: in turn 3 with the first three dummy
agents, the only recorded action is a follow whose target differs from the
actor. -/
theorem claim_C8_witness :
    (((createTurnForRun "run_demo" 3 (DUMMY_AGENTS.take 3) DUMMY_POSTS 0).agentActions.headD
        ("", [])).2.headD defaultAction).userId
      ≠ some (((createTurnForRun "run_demo" 3 (DUMMY_AGENTS.take 3) DUMMY_POSTS 0).agentActions.headD
        ("", [])).2.headD defaultAction).agentHandle :=
  claim_C8_no_self_follow "run_demo" 3 (DUMMY_AGENTS.take 3) DUMMY_POSTS 0 (by decide) (by decide)
    ((createTurnForRun "run_demo" 3 (DUMMY_AGENTS.take 3) DUMMY_POSTS 0).agentActions.headD
        ("", []))
    (by decide)
    ((((createTurnForRun "run_demo" 3 (DUMMY_AGENTS.take 3) DUMMY_POSTS 0).agentActions.headD
        ("", [])).2.headD defaultAction))
    (by decide) (by decide)

/-- Claim C9 (confirmed): the uris of `DUMMY_POSTS` are pairwise distinct,
`getPostByUri` returns exactly the matching post for every corpus post's
uri, and returns `none` for every uri that belongs to no corpus post. -/
theorem claim_C9_post_uri_roundtrip :
    (DUMMY_POSTS.map Post.uri).Nodup ∧
    (∀ p ∈ DUMMY_POSTS, getPostByUri p.uri = some p) ∧
    (∀ u : String, (∀ p ∈ DUMMY_POSTS, p.uri ≠ u) → getPostByUri u = none) := by
  refine ⟨by decide, by decide, ?_⟩
  intro u hu
  unfold getPostByUri
  rw [List.find?_eq_none]
  intro p hp
  simpa using hu p hp

/-- Claim C10 (confirmed): `handleConfigSubmit` adds exactly one run at the
front of the runs list, with `totalTurns` and `totalAgents` taken from the
submitted config and status `'running'`, and leaves every previously
existing run unchanged and in its original relative order. -/
theorem claim_C10_prepends_single_run (nowIso : String) (config : RunConfig) (st : PageState) :
    (handleConfigSubmit nowIso config st).runs =
      { runId := "run_" ++ nowIso, createdAt := nowIso, totalTurns := config.numTurns,
        totalAgents := config.numAgents, status := RunStatus.running } :: st.runs ∧
    (handleConfigSubmit nowIso config st).runs.length = st.runs.length + 1 := by
  constructor
  · rfl
  · simp [handleConfigSubmit]

end Sim
